import Mathlib

/-
Verification development for the air-traffic dashboard generator
(src/dashboard.py, function crear_dashboard_ejecutivo).

The script is a one-shot batch pipeline: read a CSV of city-pair traffic
records, clean the nine numeric columns, compute aggregates (KPI sums,
year-indexed sums, three top-10 rankings, a country-indexed sum joined
with a static country-to-ISO3 table), build six chart descriptions, and
interpolate everything into a fixed HTML template that is written to the
output path, with a try/except wrapper distinguishing a missing input
file from every other failure.

This file gives a shallow embedding of that pipeline:
  - a table is a list of rows; the nine numeric cells of a raw row are
    Option values (none models a cell that pandas.to_numeric fails to
    parse, which errors=coerce turns into NaN and fillna turns into 0);
    machine floats are idealised as exact rationals;
  - pandas groupby(...).sum() is modelled by deduplicating the key
    column, sorting the keys ascending (groupby sorts its keys) and
    summing each fiber; Series.nlargest(10).sort_values(ascending=True)
    is modelled by a stable insertion sort on the summed values;
  - the plotly figures are pure data; their conversion to embeddable
    HTML fragments lives in the external charting library and is
    modelled as an explicit function parameter of the pipeline;
  - the surrounding effectful code (pd.read_csv, the with-open write,
    the two except clauses, the printed messages) is modelled as a pure
    function from a file-system value to a file-system value plus the
    list of printed messages; for the output stage, open(path, w)
    either raises before touching the file or truncates it at once, and
    the following f.write of the assembled document either completes or
    raises after only a prefix of the string has been flushed.
-/

/-! ### Generic stable insertion sort

Used to model pandas sort_values / nlargest (stable, keep=first) and the
ascending key order produced by groupby. -/

/-- Insert a in front of the first element b with r a b = true; elements
equal under the order are kept before a, so the sort built from this is
stable. -/
def insertBy {α : Type} (r : α → α → Bool) (a : α) : List α → List α
  | [] => [a]
  | b :: l => if r a b then a :: b :: l else b :: insertBy r a l

/-- Stable insertion sort by the Boolean relation r. -/
def sortBy {α : Type} (r : α → α → Bool) : List α → List α
  | [] => []
  | a :: l => insertBy r a (sortBy r l)

/-- Code-point comparison of characters, as Python compares the
characters of two strings. -/
def charLt (a b : Char) : Bool := decide (a.toNat < b.toNat)

/-- Lexicographic code-point order on character lists. -/
def lexLt : List Char → List Char → Bool
  | [], [] => false
  | [], _ :: _ => true
  | _ :: _, [] => false
  | a :: as, b :: bs => if charLt a b then true else if charLt b a then false else lexLt as bs

/-- Non-strict lexicographic order on strings: the order in which pandas
groupby sorts string group keys. -/
def strLe (a b : String) : Bool := !(lexLt b.data a.data)

/-- Non-strict order on integers: the order in which pandas groupby
sorts integer group keys (the Year column). -/
def intLe (a b : ℤ) : Bool := decide (a ≤ b)

/-! ### Data model

One traffic record of city_pairs.csv after the header normalisation of
line 18 of src/dashboard.py. -/

/-- A raw row as loaded by pd.read_csv (line 15): the four descriptive
columns plus the nine numeric columns, where a numeric cell is some q
when it parses as a number and none when it is missing or fails to
parse (pd.to_numeric with errors=coerce yields NaN exactly there). -/
structure RawRow where
  australianPort : String
  foreignPort : String
  country : String
  year : ℤ
  passengersIn : Option ℚ
  freightIn : Option ℚ
  mailIn : Option ℚ
  passengersOut : Option ℚ
  freightOut : Option ℚ
  mailOut : Option ℚ
  passengersTotal : Option ℚ
  freightTotal : Option ℚ
  mailTotal : Option ℚ
deriving DecidableEq

/-- A cleaned row: every numeric cell is a number (line 24 of
src/dashboard.py leaves no NaN behind). -/
structure Row where
  australianPort : String
  foreignPort : String
  country : String
  year : ℤ
  passengersIn : ℚ
  freightIn : ℚ
  mailIn : ℚ
  passengersOut : ℚ
  freightOut : ℚ
  mailOut : ℚ
  passengersTotal : ℚ
  freightTotal : ℚ
  mailTotal : ℚ
deriving DecidableEq

/-- Column-name normalisation of line 18: strip the suffix _(tonnes),
collapse doubled underscores, strip surrounding whitespace. -/
def cleanColumnName (s : String) : String :=
  ((s.replace "_(tonnes)" "").replace "__" "_").trim

/-- Numeric coercion of line 24: pd.to_numeric(col, errors=coerce)
followed by .fillna(0) sends an unparsable or missing cell to 0 and a
parsed cell to its value. -/
def coerceNumeric (c : Option ℚ) : ℚ := c.getD 0

/-- Apply the numeric coercion of line 24 to every numeric cell of a
row; the descriptive columns are untouched. -/
def cleanRow (r : RawRow) : Row :=
  ⟨r.australianPort, r.foreignPort, r.country, r.year,
   coerceNumeric r.passengersIn, coerceNumeric r.freightIn, coerceNumeric r.mailIn,
   coerceNumeric r.passengersOut, coerceNumeric r.freightOut, coerceNumeric r.mailOut,
   coerceNumeric r.passengersTotal, coerceNumeric r.freightTotal, coerceNumeric r.mailTotal⟩

/-- The cleaning stage applied to the whole table: no row is added or
removed, every cell is coerced in place. -/
def cleanTable (t : List RawRow) : List Row := t.map cleanRow

/-- The nine numeric cells of a raw row, in the order of the
cols_numericas list of line 21. -/
def rawNumericFields (r : RawRow) : List (Option ℚ) :=
  [r.passengersIn, r.freightIn, r.mailIn, r.passengersOut, r.freightOut, r.mailOut,
   r.passengersTotal, r.freightTotal, r.mailTotal]

/-- The nine numeric cells of a cleaned row, in the same order. -/
def numericFields (r : Row) : List ℚ :=
  [r.passengersIn, r.freightIn, r.mailIn, r.passengersOut, r.freightOut, r.mailOut,
   r.passengersTotal, r.freightTotal, r.mailTotal]

/-- Synthetic Route key of line 50: AustralianPort, a fixed separator,
ForeignPort. -/
def Row.route (r : Row) : String := r.australianPort ++ " - " ++ r.foreignPort

/-! ### Aggregator -/

/-- Sum of val over the rows of df whose key is k: one cell of a
pandas groupby(...).sum(). -/
def fiberSum {K : Type} [DecidableEq K] (key : Row → K) (val : Row → ℚ)
    (df : List Row) (k : K) : ℚ :=
  ((df.filter fun row => decide (key row = k)).map val).sum

/-- The distinct keys of df in ascending order: the index produced by
pandas groupby, which sorts the group keys. -/
def groupKeys {K : Type} [DecidableEq K] (keyLe : K → K → Bool) (key : Row → K)
    (df : List Row) : List K :=
  sortBy keyLe ((df.map key).dedup)

/-- groupby(key)[val].sum(): one entry per distinct key, carrying the
sum of val over that key fiber. -/
def groupSum {K : Type} [DecidableEq K] (keyLe : K → K → Bool) (key : Row → K)
    (val : Row → ℚ) (df : List Row) : List (K × ℚ) :=
  (groupKeys keyLe key df).map fun k => (k, fiberSum key val df k)

/-- KPI of line 29: sum of the Passengers_Total column. -/
def totalPassengers (df : List Row) : ℚ := (df.map Row.passengersTotal).sum

/-- KPI of line 30: sum of the Freight_Total column. -/
def totalFreight (df : List Row) : ℚ := (df.map Row.freightTotal).sum

/-- KPI of line 31: sum of the Mail_Total column. -/
def totalMail (df : List Row) : ℚ := (df.map Row.mailTotal).sum

/-- Line 32: number of distinct years present. -/
def numYears (df : List Row) : ℕ := (df.map Row.year).dedup.length

/-- Line 33: smallest year present (none on an empty table, where the
pandas min is NaN). -/
def startYear (df : List Row) : Option ℤ := (df.map Row.year).min?

/-- Line 34: largest year present (none on an empty table). -/
def endYear (df : List Row) : Option ℤ := (df.map Row.year).max?

/-- Rendering of a year value inside the template header; the pandas
min/max of an empty column is NaN, which Python prints as nan. -/
def yearDisplay : Option ℤ → String
  | some y => toString y
  | none => "nan"

/-- Lines 37-41: the year-indexed aggregate, one entry per distinct
year with the summed Passengers_Total, Freight_Total and Mail_Total. -/
def yearlyTraffic (df : List Row) : List (ℤ × ℚ × ℚ × ℚ) :=
  (groupKeys intLe Row.year df).map fun y =>
    (y, fiberSum Row.year Row.passengersTotal df y,
     fiberSum Row.year Row.freightTotal df y,
     fiberSum Row.year Row.mailTotal df y)

/-- Series.nlargest(n) with the default keep=first: the n largest
values, stably sorted descending. -/
def nlargest {K : Type} (n : Nat) (l : List (K × ℚ)) : List (K × ℚ) :=
  (sortBy (fun a b => decide (b.2 ≤ a.2)) l).take n

/-- Series.sort_values(ascending=True) on a key-value series. -/
def sortValuesAsc {K : Type} (l : List (K × ℚ)) : List (K × ℚ) :=
  sortBy (fun a b => decide (a.2 ≤ b.2)) l

/-- nlargest(10).sort_values(ascending=True): the ten largest summed
values, re-sorted ascending for horizontal-bar display. -/
def top10 {K : Type} (l : List (K × ℚ)) : List (K × ℚ) := sortValuesAsc (nlargest 10 l)

/-- Line 44: top 10 Australian ports by summed Passengers_Total. -/
def topAusPorts (df : List Row) : List (String × ℚ) :=
  top10 (groupSum strLe Row.australianPort Row.passengersTotal df)

/-- Line 47: top 10 countries by summed Passengers_Total. -/
def topCountries (df : List Row) : List (String × ℚ) :=
  top10 (groupSum strLe Row.country Row.passengersTotal df)

/-- Line 51: top 10 synthetic routes by summed Passengers_Total. -/
def topRoutes (df : List Row) : List (String × ℚ) :=
  top10 (groupSum strLe Row.route Row.passengersTotal df)

/-- Line 54: country-indexed passenger sum feeding the choropleth. -/
def countryPassengers (df : List Row) : List (String × ℚ) :=
  groupSum strLe Row.country Row.passengersTotal df

/-- The static country-to-ISO3 lookup table of lines 58-74; the entry
for Other is deliberately mapped to no code. -/
def countryIsoMap : List (String × Option String) :=
  [("USA", some "USA"), ("UK", some "GBR"), ("New Zealand", some "NZL"),
   ("Singapore", some "SGP"), ("Japan", some "JPN"), ("Hong Kong", some "HKG"),
   ("Germany", some "DEU"), ("Malaysia", some "MYS"), ("Indonesia", some "IDN"),
   ("Canada", some "CAN"), ("Thailand", some "THA"), ("Fiji", some "FJI"),
   ("United Arab Emirates", some "ARE"), ("Philippines", some "PHL"),
   ("Italy", some "ITA"), ("Papua New Guinea", some "PNG"), ("France", some "FRA"),
   ("India", some "IND"), ("Korea", some "KOR"), ("South Africa", some "ZAF"),
   ("Netherlands", some "NLD"), ("Taiwan", some "TWN"), ("China", some "CHN"),
   ("Greece", some "GRC"), ("Switzerland", some "CHE"), ("Ireland", some "IRL"),
   ("Austria", some "AUT"), ("Sweden", some "SWE"), ("Denmark", some "DNK"),
   ("Norway", some "NOR"), ("Spain", some "ESP"), ("Yugoslavia", some "YUG"),
   ("Western Samoa", some "WSM"), ("Cook Islands", some "COK"),
   ("Vanuatu", some "VUT"), ("Solomon Islands", some "SLB"),
   ("New Caledonia", some "NCL"), ("Tahiti", some "PYF"), ("Tonga", some "TON"),
   ("Nauru", some "NRU"), ("Mauritius", some "MUS"), ("Zimbabwe", some "ZWE"),
   ("Bahrain", some "BHR"), ("Saudi Arabia", some "SAU"), ("Brunei", some "BRN"),
   ("Sri Lanka", some "LKA"), ("Pakistan", some "PAK"), ("Bangladesh", some "BGD"),
   ("Egypt", some "EGY"), ("Kenya", some "KEN"), ("Zambia", some "ZMB"),
   ("Argentina", some "ARG"), ("Brazil", some "BRA"), ("Chile", some "CHL"),
   ("Mexico", some "MEX"), ("Other", none)]

/-- Series.map(country_iso_map) on a country name: a country absent
from the table and a country mapped to None both come out as a null
code (pandas turns both into NaN). -/
def isoOf (c : String) : Option String :=
  match countryIsoMap.find? fun kv => kv.1 == c with
  | some kv => kv.2
  | none => none

/-- Line 75: the country aggregate with its iso_alpha column joined
on. Unmapped countries are retained with a null code. -/
def countryPassengersIso (df : List Row) : List (String × ℚ × Option String) :=
  (countryPassengers df).map fun kv => (kv.1, kv.2, isoOf kv.1)

/-- Modelled from the spec: rows whose country has no mapping entry
"must be excluded (not erroring) from the choropleth" - the exclusion
of null locations happens inside the external charting library, so the
plotted set is the sub-list of the joined aggregate that carries an
actual ISO3 code. -/
def choroplethPlotted (df : List Row) : List (String × ℚ × String) :=
  (countryPassengersIso df).filterMap fun x =>
    match x.2.2 with
    | some iso => some (x.1, x.2.1, iso)
    | none => none
/-- Fixed template text: piece 0 of the f-string of lines 130-218. -/
def htmlPiece0 : String :=
  "\n        <!DOCTYPE html>\n        <html lang=\"es\">\n        <head>\n            <meta charset=\"UTF-8\">\n            <meta name=\"viewport\" content=\"width=device-width, initial-scale=1.0\">\n            <title>Dashboard Ejecutivo de Tráfico Aéreo</title>\n            <script src=\"https://cdn.plot.ly/plotly-latest.min.js\"></script>\n            <style>\n                body \x7b font-family: -apple-system, BlinkMacSystemFont, \"Segoe UI\", Roboto, \"Helvetica Neue\", Arial, sans-serif; margin: 0; background-color: #f8f9fa; color: #212529; \x7d\n                .header \x7b background-color: #343a40; color: white; padding: 20px 40px; text-align: center; \x7d\n                .header h1 \x7b margin: 0; font-size: 2.5rem; \x7d\n                .header p \x7b margin: 5px 0 0; font-size: 1.2rem; color: #adb5bd; \x7d\n                .container \x7b padding: 20px; \x7d\n                .kpi-container \x7b display: flex; justify-content: space-around; flex-wrap: wrap; gap: 20px; margin-bottom: 30px; \x7d\n                .kpi \x7b background-color: white; border-radius: 8px; box-shadow: 0 2px 4px rgba(0,0,0,0.1); padding: 20px; text-align: center; flex-grow: 1; \x7d\n                .kpi h3 \x7b margin: 0 0 10px; font-size: 1.2rem; color: #6c757d; \x7d\n                .kpi .value \x7b font-size: 2.5rem; font-weight: bold; color: #007bff; \x7d\n                .grid-container \x7b display: grid; grid-template-columns: repeat(auto-fit, minmax(48%, 1fr)); gap: 20px; \x7d\n                .grid-item \x7b background-color: white; border-radius: 8px; box-shadow: 0 2px 4px rgba(0,0,0,0.1); padding: 20px; \x7d\n                .full-width \x7b grid-column: 1 / -1; \x7d\n                .insight \x7b padding: 15px; background-color: #e9ecef; border-left: 5px solid #007bff; margin-top: 15px; border-radius: 4px; \x7d\n                .insight b \x7b color: #0056b3; \x7d\n            </style>\n        </head>\n        <body>\n            <div class=\"header\">\n                <h1>Dashboard Ejecutivo: Análisis de Tráfico Aéreo</h1>\n                <p>Resumen del Tráfico Internacional de Australia ("

/-- Fixed template text: piece 1 of the f-string of lines 130-218. -/
def htmlPiece1 : String :=
  "-"

/-- Fixed template text: piece 2 of the f-string of lines 130-218. -/
def htmlPiece2 : String :=
  ")</p>\n            </div>\n\n            <div class=\"container\">\n                <div class=\"kpi-container\">\n                    <div class=\"kpi\">\n                        <h3>Total Pasajeros</h3>\n                        <p class=\"value\">"

/-- Fixed template text: piece 3 of the f-string of lines 130-218. -/
def htmlPiece3 : String :=
  "</p>\n                    </div>\n                    <div class=\"kpi\">\n                        <h3>Total Carga (toneladas)</h3>\n                        <p class=\"value\">"

/-- Fixed template text: piece 4 of the f-string of lines 130-218. -/
def htmlPiece4 : String :=
  "</p>\n                    </div>\n                    <div class=\"kpi\">\n                        <h3>Total Correo (toneladas)</h3>\n                        <p class=\"value\">"

/-- Fixed template text: piece 5 of the f-string of lines 130-218. -/
def htmlPiece5 : String :=
  "</p>\n                    </div>\n                </div>\n\n                <div class=\"grid-container\">\n                    <div class=\"grid-item\">\n                        "

/-- Fixed template text: piece 6 of the f-string of lines 130-218. -/
def htmlPiece6 : String :=
  "\n                        <div class=\"insight\">\n                            <b>Análisis Destacado:</b> Se observa un crecimiento sostenido en el número de pasajeros a lo largo de los años, indicando una expansión saludable del mercado. La demanda muestra una tendencia alcista constante.\n                        </div>\n                    </div>\n                    <div class=\"grid-item\">\n                        "

/-- Fixed template text: piece 7 of the f-string of lines 130-218. -/
def htmlPiece7 : String :=
  "\n                        <div class=\"insight\">\n                            <b>Análisis Destacado:</b> El transporte de carga también muestra una clara tendencia al alza, lo que refleja un aumento en el comercio y la logística internacional a través de los puertos aéreos australianos.\n                        </div>\n                    </div>\n                    <div class=\"grid-item full-width\">\n                        "

/-- Fixed template text: piece 8 of the f-string of lines 130-218. -/
def htmlPiece8 : String :=
  "\n                        <div class=\"insight\">\n                            <b>Análisis Destacado:</b> El mapa ilustra la concentración del tráfico de pasajeros en regiones clave como Norteamérica, Europa Occidental y, de manera muy destacada, el Sudeste Asiático y Oceanía. Nueva Zelanda y EE. UU. son los mercados internacionales más importantes.\n                        </div>\n                    </div>\n                    <div class=\"grid-item\">\n                        "

/-- Fixed template text: piece 9 of the f-string of lines 130-218. -/
def htmlPiece9 : String :=
  "\n                        <div class=\"insight\">\n                            <b>Análisis Destacado:</b> El puerto de Sídney es, con diferencia, el principal punto de entrada y salida internacional de Australia, seguido por Melbourne y Brisbane. Esto subraya su rol como el hub aéreo más crítico del país.\n                        </div>\n                    </div>\n                    <div class=\"grid-item\">\n                        "

/-- Fixed template text: piece 10 of the f-string of lines 130-218. -/
def htmlPiece10 : String :=
  "\n                        <div class=\"insight\">\n                            <b>Análisis Destacado:</b> Nueva Zelanda, Estados Unidos y el Reino Unido constituyen los tres principales mercados de pasajeros, lo que evidencia fuertes lazos económicos y culturales. Singapur y Japón también son socios estratégicos clave en Asia.\n                        </div>\n                    </div>\n                    <div class=\"grid-item full-width\">\n                        "

/-- Fixed template text: piece 11 of the f-string of lines 130-218. -/
def htmlPiece11 : String :=
  "\n                        <div class=\"insight\">\n                            <b>Análisis Destacado:</b> La ruta Sídney-Auckland es la más transitada, consolidándose como el corredor aéreo más importante. Las rutas hacia Singapur desde Sídney y Melbourne también son vitales, actuando como puentes hacia el resto de Asia y Europa.\n                        </div>\n                    </div>\n                </div>\n            </div>\n        </body>\n        </html>\n        "

/-! ### Chart Builder

Each aggregate becomes one chart description (lines 83-127). The
conversion of a figure to an embeddable HTML fragment is performed by
the external plotly runtime and is therefore a parameter of the
pipeline, not a definition of this file. -/

/-- An area chart as built by px.area plus the update_traces call:
data series, titles, axis labels, template and the two fixed colours. -/
structure AreaChart where
  points : List (ℤ × ℚ)
  xName : String
  yName : String
  title : String
  xLabel : String
  yLabel : String
  templateName : String
  lineColor : String
  fillColor : String
deriving DecidableEq

/-- A horizontal bar chart as built by px.bar plus the update_traces
and update_layout calls. -/
structure BarChart where
  bars : List (String × ℚ)
  orientation : String
  title : String
  xLabel : String
  yLabel : String
  templateName : String
  textAuto : String
  markerColor : String
  textPosition : String
  categoryOrder : String
deriving DecidableEq

/-- A choropleth as built by px.choropleth plus update_layout: one row
per country carrying the summed value and the (possibly null) ISO3
location. -/
structure ChoroplethChart where
  rows : List (String × ℚ × Option String)
  colorScale : String
  title : String
  templateName : String
  showFrame : Bool
  showCoastlines : Bool
  projectionType : String
deriving DecidableEq

/-- A chart specification handed to the external renderer. -/
inductive Fig where
  | area : AreaChart → Fig
  | hbar : BarChart → Fig
  | choropleth : ChoroplethChart → Fig
deriving DecidableEq

/-- Lines 83-87: annual passenger trend chart. -/
def figPassengersTrend (df : List Row) : Fig :=
  Fig.area ⟨(yearlyTraffic df).map fun r => (r.1, r.2.1), "Year", "Passengers_Total",
    "Evolución Anual del Tráfico de Pasajeros", "Año", "Total de Pasajeros",
    "plotly_white", "#007bff", "rgba(0,123,255,0.2)"⟩

/-- Lines 90-94: annual freight trend chart. -/
def figFreightTrend (df : List Row) : Fig :=
  Fig.area ⟨(yearlyTraffic df).map fun r => (r.1, r.2.2.1), "Year", "Freight_Total",
    "Evolución Anual del Tráfico de Carga (toneladas)", "Año",
    "Total de Carga (toneladas)", "plotly_white", "#28a745", "rgba(40,167,69,0.2)"⟩

/-- Lines 97-102: top Australian ports bar chart. -/
def figTopPorts (df : List Row) : Fig :=
  Fig.hbar ⟨topAusPorts df, "h", "Top 10 Puertos Australianos por Pasajeros",
    "Total de Pasajeros", "Puerto Australiano", "plotly_white", ".2s", "#17a2b8",
    "outside", "total ascending"⟩

/-- Lines 105-110: top countries bar chart. -/
def figTopCountries (df : List Row) : Fig :=
  Fig.hbar ⟨topCountries df, "h", "Top 10 Países por Pasajeros",
    "Total de Pasajeros", "País", "plotly_white", ".2s", "#ffc107",
    "outside", "total ascending"⟩

/-- Lines 113-118: top routes bar chart. -/
def figTopRoutes (df : List Row) : Fig :=
  Fig.hbar ⟨topRoutes df, "h", "Top 10 Rutas por Pasajeros",
    "Total de Pasajeros", "Ruta", "plotly_white", ".2s", "#dc3545",
    "outside", "total ascending"⟩

/-- Lines 121-127: world choropleth of passengers by country. -/
def figMap (df : List Row) : Fig :=
  Fig.choropleth ⟨countryPassengersIso df, "Plasma",
    "Distribución Geográfica de Pasajeros", "plotly_white", false, false,
    "equirectangular"⟩

/-! ### Report Assembler

The Python format spec ,.0f renders a number with thousands separators
and zero decimal places: round half-to-even to an integer, then group
the decimal digits in threes with commas. -/

/-- Round a rational half-to-even, as Python float formatting with zero
decimal places does. -/
def roundHalfEven (q : ℚ) : ℤ :=
  let n := ⌊q⌋
  if q - n < 1 / 2 then n
  else if 1 / 2 < q - n then n + 1
  else if n % 2 = 0 then n else n + 1

/-- Insert a comma after every group of three characters of a reversed
digit string. -/
def commaChunks : List Char → List Char
  | c1 :: c2 :: c3 :: c4 :: rest => c1 :: c2 :: c3 :: ',' :: commaChunks (c4 :: rest)
  | l => l

/-- Group the decimal digits of a natural number in threes with
commas. -/
def commaGroup (n : ℕ) : String :=
  ⟨(commaChunks (toString n).data.reverse).reverse⟩

/-- Thousands-separated rendering of an integer. -/
def fmtInt (z : ℤ) : String :=
  (if z < 0 then "-" else "") ++ commaGroup z.natAbs

/-- The rendering of a KPI value by the format spec ,.0f of lines
165-173. -/
def fmtKpi (q : ℚ) : String := fmtInt (roundHalfEven q)

/-- The assembled HTML document of lines 130-218: the fixed template
pieces interleaved with the year range, the three formatted KPI values
and the six rendered chart fragments, in source order. -/
def htmlContent (sy ey : String) (tp tf tm : ℚ)
    (cPass cFreight cMap cPorts cCountries cRoutes : String) : String :=
  htmlPiece0 ++ (sy ++ (htmlPiece1 ++ (ey ++ (htmlPiece2 ++ (fmtKpi tp ++
    (htmlPiece3 ++ (fmtKpi tf ++ (htmlPiece4 ++ (fmtKpi tm ++ (htmlPiece5 ++
    (cPass ++ (htmlPiece6 ++ (cFreight ++ (htmlPiece7 ++ (cMap ++ (htmlPiece8 ++
    (cPorts ++ (htmlPiece9 ++ (cCountries ++ (htmlPiece10 ++ (cRoutes ++
    htmlPiece11)))))))))))))))))))))

/-- The whole in-memory pipeline on a cleaned table: compute the
aggregates, build the six figures, render each with the external
charting function, and assemble the document. -/
def generateDashboard (render : Fig → String) (df : List Row) : String :=
  htmlContent (yearDisplay (startYear df)) (yearDisplay (endYear df))
    (totalPassengers df) (totalFreight df) (totalMail df)
    (render (figPassengersTrend df)) (render (figFreightTrend df))
    (render (figMap df)) (render (figTopPorts df)) (render (figTopCountries df))
    (render (figTopRoutes df))

/-! ### Effectful wrapper

The try/except body of crear_dashboard_ejecutivo, over an explicit
file-system value. pd.read_csv is external code: its successful parse
(and the presence of the required columns, whose absence raises from
the indexing of lines 21-24) is modelled by a parse parameter that
either returns the raw table or the message text of the raised
exception. A failure of open/write on the output path is modelled by
the writeErr parameter carrying the message text of the raised OSError;
the single f.write of the complete document is one atomic update. -/

/-- A file system: an association of paths to file contents. -/
structure FS where
  files : List (String × String)
deriving DecidableEq

/-- Contents of the file at a path, when it exists. -/
def FS.read (fs : FS) (p : String) : Option String :=
  (fs.files.find? fun kv => kv.1 == p).map Prod.snd

/-- Truncate-or-create write of the whole contents to a path. -/
def FS.write (fs : FS) (p contents : String) : FS :=
  ⟨(p, contents) :: fs.files⟩

/-- The file-not-found diagnostic of line 227. -/
def fnfMsg (rutaCsv : String) : String :=
  "Error: No se encontró el archivo en la ruta \x27" ++
    (rutaCsv ++ "\x27. Por favor, verifica la ruta.")

/-- The generic diagnostic of line 229, carrying the message of the
caught exception. -/
def genericMsg (e : String) : String := "Ocurrió un error inesperado: " ++ e

/-- The success message of line 224. -/
def successMsg (archivoSalida : String) : String :=
  "¡Dashboard creado exitosamente! El archivo se ha guardado como \x27" ++
    (archivoSalida ++ "\x27")

/-- Outcome of the output stage of lines 221-222. open(path, w) either
raises before touching the file (openFail, carrying the message of the
raised OSError), or truncates the file at once; the following f.write
of the assembled document then either completes (ok) or raises after
only the first n characters have been flushed (writeFail n, carrying
the message of the raised OSError). -/
inductive WriteOutcome where
  | ok : WriteOutcome
  | openFail : String → WriteOutcome
  | writeFail : Nat → String → WriteOutcome
deriving DecidableEq

/-- The first n characters of a string: what a failing f.write leaves
behind in the truncated-then-partially-written output file. -/
def strTake (s : String) (n : Nat) : String := ⟨s.data.take n⟩

/-- The whole of crear_dashboard_ejecutivo (lines 13-229): returns the
final file system and the list of printed messages. A missing input
file raises FileNotFoundError, caught by the first except clause; a
parse or schema failure raises some other exception before the output
file is opened, caught by the second clause with the file system
untouched. In the output stage, a failure of open leaves the file
system untouched, while a failure of f.write itself leaves the output
file truncated to the prefix of the document that was flushed; both
are caught by the second clause. Otherwise the complete document is
written and the success message printed. -/
def crearDashboardEjecutivo (parse : String → Except String (List RawRow))
    (render : Fig → String) (wout : WriteOutcome) (fs : FS)
    (rutaCsv archivoSalida : String) : FS × List String :=
  match fs.read rutaCsv with
  | none => (fs, [fnfMsg rutaCsv])
  | some contents =>
    match parse contents with
    | Except.error e => (fs, [genericMsg e])
    | Except.ok raw =>
      let df := cleanTable raw
      let html := generateDashboard render df
      match wout with
      | WriteOutcome.openFail e => (fs, [genericMsg e])
      | WriteOutcome.writeFail n e =>
        (fs.write archivoSalida (strTake html n), [genericMsg e])
      | WriteOutcome.ok => (fs.write archivoSalida html, [successMsg archivoSalida])

/-! ### Entity lifecycle trace

For the immutability claim about the data entities, the relevant
behaviour of the script is the order in which each entity is created,
read and mutated in place. The trace below transcribes lines 15-127 of
src/dashboard.py statement by statement; the Loader/Cleaner stage
(lines 15-24) constructs the cleaned table, so it counts as the
creation of the dataframe entity. -/

/-- The data entities of the pipeline. -/
inductive Entity where
  | dataframe
  | yearlyTraffic
  | topAusPorts
  | topCountries
  | topRoutes
  | countryPassengers
deriving DecidableEq

/-- An operation on an entity: creation, a read by a later stage, or an
in-place mutation. -/
inductive Ev where
  | create : Entity → Ev
  | read : Entity → Ev
  | mutate : Entity → Ev
deriving DecidableEq

/-- The operations of crear_dashboard_ejecutivo on its entities, in
source order: load and clean (15-24), the KPI reads (29-34), the
aggregates (37, 44, 47), the in-place addition of the Route column to
the dataframe (50), the routes aggregate (51), the country aggregate
(54), the in-place addition of its iso_alpha column (75), and the reads
of the chart builder (83-127). -/
def pipelineTrace : List Ev :=
  [Ev.create Entity.dataframe,
   Ev.read Entity.dataframe,
   Ev.read Entity.dataframe, Ev.create Entity.yearlyTraffic,
   Ev.read Entity.dataframe, Ev.create Entity.topAusPorts,
   Ev.read Entity.dataframe, Ev.create Entity.topCountries,
   Ev.mutate Entity.dataframe,
   Ev.read Entity.dataframe, Ev.create Entity.topRoutes,
   Ev.read Entity.dataframe, Ev.create Entity.countryPassengers,
   Ev.mutate Entity.countryPassengers,
   Ev.read Entity.yearlyTraffic, Ev.read Entity.yearlyTraffic,
   Ev.read Entity.topAusPorts, Ev.read Entity.topCountries,
   Ev.read Entity.topRoutes, Ev.read Entity.countryPassengers]

/-- Whether a trace mutates an entity after (strictly later than) the
creation of that entity. -/
def mutatesAfter (t : List Ev) (e : Entity) : Bool :=
  ((t.dropWhile fun ev => !(decide (ev = Ev.create e))).drop 1).any
    fun ev => decide (ev = Ev.mutate e)

/-! ### Concrete tables used as witnesses -/

/-- A row with every descriptive column fixed and a chosen Australian
port, country and passenger total. -/
def mkRowW (port country : String) (p : ℚ) : Row :=
  ⟨port, "Auckland", country, 1999, 0, 0, 0, 0, 0, 0, p, 0, 0⟩

/-- A cleaned table with eleven distinct Australian ports, so that one
port group is excluded from the top-10 ranking. -/
def dfW : List Row :=
  [mkRowW "K" "Other" 11, mkRowW "A" "Japan" 1, mkRowW "B" "Japan" 2,
   mkRowW "C" "Japan" 3, mkRowW "D" "Japan" 4, mkRowW "E" "Japan" 5,
   mkRowW "F" "Japan" 6, mkRowW "G" "Japan" 7, mkRowW "H" "Japan" 8,
   mkRowW "I" "Japan" 9, mkRowW "J" "Japan" 10]

/-- A raw row whose Passengers_In cell failed numeric parsing. -/
def rawRowW : RawRow :=
  ⟨"Sydney", "Auckland", "New Zealand", 1999,
   none, some 2, some 3, some 4, some 5, some 6, some 7, some 8, some 9⟩

/-- A one-row raw table containing an unparsable numeric cell. -/
def rawTableW : List RawRow := [rawRowW]

/-- A cleaned table containing a country with no ISO mapping entry. -/
def df7 : List Row :=
  [mkRowW "Sydney" "Other" 5, mkRowW "Melbourne" "Japan" 7]

/-- What the spec asserts of each top-10 ranking produced from a
grouped-and-summed series: at most ten entries, values sorted
ascending, and no excluded group outranks an included entry. -/
def rankingOk {K : Type} (groups ranking : List (K × ℚ)) : Prop :=
  ranking.length ≤ 10 ∧
  ranking.Pairwise (fun a b => a.2 ≤ b.2) ∧
  ∀ p ∈ ranking, ∀ q ∈ groups, q.1 ∉ ranking.map Prod.fst → q.2 ≤ p.2

/-! ### Helper lemmas on the insertion sort -/

theorem perm_insertBy {α : Type} (r : α → α → Bool) (a : α) (l : List α) :
    (insertBy r a l).Perm (a :: l) := by
  induction l with
  | nil => simp [insertBy]
  | cons b l ih =>
    by_cases h : r a b
    · simp [insertBy, h]
    · simp only [insertBy, h, if_neg, Bool.false_eq_true, not_false_iff]
      exact (ih.cons b).trans (List.Perm.swap a b l)

theorem mem_insertBy {α : Type} {r : α → α → Bool} {a x : α} {l : List α} :
    x ∈ insertBy r a l ↔ x = a ∨ x ∈ l := by
  rw [(perm_insertBy r a l).mem_iff, List.mem_cons]

theorem perm_sortBy {α : Type} (r : α → α → Bool) (l : List α) :
    (sortBy r l).Perm l := by
  induction l with
  | nil => simp [sortBy]
  | cons a l ih => exact (perm_insertBy r a (sortBy r l)).trans (ih.cons a)

theorem pairwise_insertBy {α : Type} {r : α → α → Bool}
    (htrans : ∀ a b c, r a b = true → r b c = true → r a c = true)
    (htotal : ∀ a b, r a b = true ∨ r b a = true)
    (a : α) {l : List α} (h : l.Pairwise fun x y => r x y = true) :
    (insertBy r a l).Pairwise fun x y => r x y = true := by
  induction l with
  | nil => simp [insertBy]
  | cons b l ih =>
    rw [List.pairwise_cons] at h
    obtain ⟨hb, hl⟩ := h
    by_cases hr : r a b = true
    · simp only [insertBy, hr, if_pos]
      refine List.Pairwise.cons ?_ (List.Pairwise.cons hb hl)
      intro y hy
      rcases List.mem_cons.mp hy with rfl | hy
      · exact hr
      · exact htrans a b y hr (hb y hy)
    · simp only [insertBy, hr, if_neg, Bool.false_eq_true, not_false_iff]
      refine List.Pairwise.cons ?_ (ih hl)
      intro y hy
      rcases mem_insertBy.mp hy with hEq | hy
      · rcases htotal a b with h1 | h1
        · exact absurd h1 hr
        · exact hEq.symm ▸ h1
      · exact hb y hy

theorem pairwise_sortBy {α : Type} {r : α → α → Bool}
    (htrans : ∀ a b c, r a b = true → r b c = true → r a c = true)
    (htotal : ∀ a b, r a b = true ∨ r b a = true) (l : List α) :
    (sortBy r l).Pairwise fun x y => r x y = true := by
  induction l with
  | nil => simp [sortBy]
  | cons a l ih => exact pairwise_insertBy htrans htotal a ih

/-! ### Helper lemmas on grouping -/

theorem sum_map_filter_split {α : Type} (p : α → Bool) (val : α → ℚ) (l : List α) :
    ((l.filter p).map val).sum + ((l.filter fun x => !(p x)).map val).sum
      = (l.map val).sum := by
  induction l with
  | nil => simp
  | cons a l ih =>
    by_cases h : p a
    · simp only [List.filter_cons, h, List.map_cons, List.sum_cons, Bool.not_true,
        if_pos, Bool.false_eq_true, if_neg, not_false_iff]
      rw [add_assoc, ih]
    · simp only [List.filter_cons, h, Bool.false_eq_true, if_neg, not_false_iff,
        Bool.not_false, if_pos, List.map_cons, List.sum_cons]
      rw [add_left_comm, ih]

theorem sum_fiberSum {K : Type} [DecidableEq K] (key : Row → K) (val : Row → ℚ)
    (ks : List K) (df : List Row) (hnd : ks.Nodup) (hcov : ∀ r ∈ df, key r ∈ ks) :
    (ks.map (fiberSum key val df)).sum = (df.map val).sum := by
  induction ks generalizing df with
  | nil =>
    have : df = [] := List.eq_nil_iff_forall_not_mem.mpr fun r hr =>
      (List.not_mem_nil (key r)) (hcov r hr)
    simp [this]
  | cons k ks ih =>
    rw [List.nodup_cons] at hnd
    obtain ⟨hk, hnd⟩ := hnd
    have hsplit := sum_map_filter_split (fun row => decide (key row = k)) val df
    have hrest : (ks.map (fiberSum key val df)).sum
        = (ks.map (fiberSum key val (df.filter fun row => !(decide (key row = k))))).sum := by
      refine congrArg List.sum (List.map_congr_left fun k2 hk2 => ?_)
      have hne : ¬ k2 = k := fun hEq => hk (hEq ▸ hk2)
      unfold fiberSum
      rw [List.filter_filter]
      refine congrArg List.sum (congrArg (List.map val) (List.filter_congr fun row hrow => ?_))
      by_cases h2 : key row = k2
      · have h3 : ¬ key row = k := fun hcontra => hne (h2.symm.trans hcontra)
        simp [h2, h3, hne]
      · simp [h2]
    have hcov2 : ∀ r ∈ (df.filter fun row => !(decide (key row = k))), key r ∈ ks := by
      intro r hr
      rw [List.mem_filter] at hr
      obtain ⟨hrdf, hrk⟩ := hr
      rcases List.mem_cons.mp (hcov r hrdf) with h1 | h1
      · simp [h1] at hrk
      · exact h1
    rw [List.map_cons, List.sum_cons, hrest, ih _ hnd hcov2, ← hsplit]
    rfl

theorem nodup_groupKeys {K : Type} [DecidableEq K] (keyLe : K → K → Bool)
    (key : Row → K) (df : List Row) : (groupKeys keyLe key df).Nodup :=
  ((perm_sortBy keyLe ((df.map key).dedup)).nodup_iff).mpr (List.nodup_dedup _)

theorem mem_groupKeys {K : Type} [DecidableEq K] {keyLe : K → K → Bool}
    {key : Row → K} {df : List Row} {r : Row} (hr : r ∈ df) :
    key r ∈ groupKeys keyLe key df := by
  rw [groupKeys, (perm_sortBy keyLe ((df.map key).dedup)).mem_iff, List.mem_dedup]
  exact List.mem_map_of_mem key hr

theorem sum_groupSum {K : Type} [DecidableEq K] (keyLe : K → K → Bool)
    (key : Row → K) (val : Row → ℚ) (df : List Row) :
    ((groupSum keyLe key val df).map Prod.snd).sum = (df.map val).sum := by
  rw [groupSum, List.map_map]
  exact sum_fiberSum key val _ df (nodup_groupKeys keyLe key df)
    fun r hr => mem_groupKeys hr

theorem mem_groupSum {K : Type} [DecidableEq K] (keyLe : K → K → Bool)
    (key : Row → K) (val : Row → ℚ) {df : List Row} {r : Row} (hr : r ∈ df) :
    (key r, fiberSum key val df (key r)) ∈ groupSum keyLe key val df :=
  List.mem_map_of_mem (fun k => (k, fiberSum key val df k)) (mem_groupKeys hr)

/-! ### The top-10 ranking lemma -/

theorem rankingOk_top10 {K : Type} (l : List (K × ℚ)) : rankingOk l (top10 l) := by
  have htrans : ∀ a b c : K × ℚ, decide (b.2 ≤ a.2) = true → decide (c.2 ≤ b.2) = true →
      decide (c.2 ≤ a.2) = true := fun a b c h1 h2 =>
    decide_eq_true (le_trans (of_decide_eq_true h2) (of_decide_eq_true h1))
  have htotal : ∀ a b : K × ℚ, decide (b.2 ≤ a.2) = true ∨ decide (a.2 ≤ b.2) = true := by
    intro a b
    rcases le_total b.2 a.2 with h | h
    · exact Or.inl (decide_eq_true h)
    · exact Or.inr (decide_eq_true h)
  have hperm : (sortBy (fun a b : K × ℚ => decide (b.2 ≤ a.2)) l).Perm l := perm_sortBy _ l
  have hsorted := pairwise_sortBy htrans htotal l
  have hperm2 : (top10 l).Perm
      ((sortBy (fun a b : K × ℚ => decide (b.2 ≤ a.2)) l).take 10) :=
    perm_sortBy _ _
  refine ⟨?_, ?_, ?_⟩
  · rw [hperm2.length_eq]
    exact List.length_take_le 10 _
  · have htrans2 : ∀ a b c : K × ℚ, decide (a.2 ≤ b.2) = true → decide (b.2 ≤ c.2) = true →
        decide (a.2 ≤ c.2) = true := fun a b c h1 h2 =>
      decide_eq_true (le_trans (of_decide_eq_true h1) (of_decide_eq_true h2))
    have htotal2 : ∀ a b : K × ℚ, decide (a.2 ≤ b.2) = true ∨ decide (b.2 ≤ a.2) = true := by
      intro a b
      rcases le_total a.2 b.2 with h | h
      · exact Or.inl (decide_eq_true h)
      · exact Or.inr (decide_eq_true h)
    exact (pairwise_sortBy htrans2 htotal2 _).imp fun h => of_decide_eq_true h
  · intro p hp q hq hnot
    set s := sortBy (fun a b : K × ℚ => decide (b.2 ≤ a.2)) l with hs
    have hqs : q ∈ s := hperm.mem_iff.mpr hq
    have hptake : p ∈ s.take 10 := hperm2.mem_iff.mp hp
    have hqtake : q ∉ s.take 10 := by
      intro hcontra
      exact hnot ((hperm2.map Prod.fst).mem_iff.mpr (List.mem_map_of_mem Prod.fst hcontra))
    have hqdrop : q ∈ s.drop 10 := by
      rcases List.mem_append.mp ((List.take_append_drop 10 s) ▸ hqs) with h | h
      · exact absurd h hqtake
      · exact h
    have hsplit := (List.take_append_drop 10 s).symm ▸ hsorted
    have h3 := (List.pairwise_append.mp hsplit).2.2
    exact of_decide_eq_true (h3 p hptake q hqdrop)
/-! ### Small helper facts -/

theorem coerce_spec (c : Option ℚ) :
    (c = none → coerceNumeric c = 0) ∧ ∀ q : ℚ, c = some q → coerceNumeric c = q := by
  cases c <;> simp [coerceNumeric]

/-! ### The claims -/

/-- C1: for every cleaned input table, each of the three top-10
rankings (grouping by Australian port, by country, and by synthetic
route, summing Passengers_Total per group) contains at most 10 entries,
is sorted ascending by summed value, and every summed value retained in
a ranking is greater than or equal to every summed value of a group
excluded from it. -/
theorem claim_C1_top10_rankings (df : List Row) :
    rankingOk (groupSum strLe Row.australianPort Row.passengersTotal df) (topAusPorts df) ∧
    rankingOk (groupSum strLe Row.country Row.passengersTotal df) (topCountries df) ∧
    rankingOk (groupSum strLe Row.route Row.passengersTotal df) (topRoutes df) :=
  ⟨rankingOk_top10 _, rankingOk_top10 _, rankingOk_top10 _⟩

/- Witness for C1 at a concrete table with eleven port groups: the
excluded group A (value 1) does not outrank the retained entry
B (value 2). -/
unseal Rat.add in
theorem claim_C1_witness : ((1:ℚ) ≤ 2) :=
  (claim_C1_top10_rankings dfW).1.2.2 ("B", 2) (by decide) ("A", 1) (by decide) (by decide)

/-- C2: for every cleaned input table and for each of the three metrics
Passengers_Total, Freight_Total and Mail_Total, the sum of that metric
over all rows equals the sum of that metric over the year-indexed
aggregate: grouping by Year conserves totals. -/
theorem claim_C2_year_grouping_conserves_totals (df : List Row) :
    ((yearlyTraffic df).map fun r => r.2.1).sum = totalPassengers df ∧
    ((yearlyTraffic df).map fun r => r.2.2.1).sum = totalFreight df ∧
    ((yearlyTraffic df).map fun r => r.2.2.2).sum = totalMail df := by
  refine ⟨?_, ?_, ?_⟩ <;>
  · rw [yearlyTraffic, List.map_map]
    exact sum_fiberSum Row.year _ _ df (nodup_groupKeys intLe Row.year df)
      fun r hr => mem_groupKeys hr

/-- C3: for every input table, the cleaning stage removes no row, and
on each of the nine numeric cells of each row the coercion is total: a
cell that failed to parse becomes exactly zero and a parsed cell keeps
its value. -/
theorem claim_C3_numeric_coercion_total (t : List RawRow) :
    (cleanTable t).length = t.length ∧
    ∀ r ∈ t, cleanRow r ∈ cleanTable t ∧
      ∀ pair ∈ (rawNumericFields r).zip (numericFields (cleanRow r)),
        (pair.1 = none → pair.2 = 0) ∧ ∀ q : ℚ, pair.1 = some q → pair.2 = q := by
  refine ⟨List.length_map t cleanRow, fun r hr => ⟨List.mem_map_of_mem cleanRow hr, ?_⟩⟩
  intro pair hpair
  have hmem : pair ∈ [(r.passengersIn, coerceNumeric r.passengersIn),
      (r.freightIn, coerceNumeric r.freightIn), (r.mailIn, coerceNumeric r.mailIn),
      (r.passengersOut, coerceNumeric r.passengersOut),
      (r.freightOut, coerceNumeric r.freightOut), (r.mailOut, coerceNumeric r.mailOut),
      (r.passengersTotal, coerceNumeric r.passengersTotal),
      (r.freightTotal, coerceNumeric r.freightTotal),
      (r.mailTotal, coerceNumeric r.mailTotal)] := hpair
  simp only [List.mem_cons, List.not_mem_nil, or_false] at hmem
  rcases hmem with h|h|h|h|h|h|h|h|h <;> rw [h] <;> exact coerce_spec _

/-- Witness for C3 at a one-row table whose Passengers_In cell failed
to parse: the cell becomes zero and the row is kept. -/
theorem claim_C3_witness : coerceNumeric none = 0 ∧ cleanRow rawRowW ∈ cleanTable rawTableW :=
  ⟨(((claim_C3_numeric_coercion_total rawTableW).2 rawRowW (by decide)).2
      ((none : Option ℚ), coerceNumeric none) (by decide)).1 rfl,
   ((claim_C3_numeric_coercion_total rawTableW).2 rawRowW (by decide)).1⟩

/-- C5: the pipeline is a deterministic function of the input file
state (for a fixed external parser and chart renderer): two runs on
identical file systems produce identical results, in particular
byte-identical HTML output; the template itself embeds no timestamp or
other run-dependent data. -/
theorem claim_C5_deterministic (parse : String → Except String (List RawRow))
    (render : Fig → String) (wout : WriteOutcome) (fs1 fs2 : FS)
    (rutaCsv archivoSalida : String) (h : fs1 = fs2) :
    crearDashboardEjecutivo parse render wout fs1 rutaCsv archivoSalida =
      crearDashboardEjecutivo parse render wout fs2 rutaCsv archivoSalida := by
  rw [h]

/-- Witness for C5: two runs on the same concrete empty file system
agree. -/
theorem claim_C5_witness :
    crearDashboardEjecutivo (fun _ => Except.error "x") (fun _ => "") WriteOutcome.ok ⟨[]⟩
        "city_pairs.csv" "dashboard_trafico_aereo.html" =
      crearDashboardEjecutivo (fun _ => Except.error "x") (fun _ => "") WriteOutcome.ok ⟨[]⟩
        "city_pairs.csv" "dashboard_trafico_aereo.html" :=
  claim_C5_deterministic _ _ _ _ _ _ _ rfl

/-- C6: when the input file does not exist, the run prints exactly the
file-not-found diagnostic, which names the path and is distinct from
every generic error message, and the file system (in particular the
output path) is untouched. -/
theorem claim_C6_missing_input (parse : String → Except String (List RawRow))
    (render : Fig → String) (wout : WriteOutcome) (fs : FS)
    (rutaCsv archivoSalida : String) (h : fs.read rutaCsv = none) :
    crearDashboardEjecutivo parse render wout fs rutaCsv archivoSalida =
      (fs, [fnfMsg rutaCsv]) ∧
    (crearDashboardEjecutivo parse render wout fs rutaCsv archivoSalida).1.read
        archivoSalida = fs.read archivoSalida ∧
    (∃ pre post, fnfMsg rutaCsv = pre ++ (rutaCsv ++ post)) ∧
    ∀ e, fnfMsg rutaCsv ≠ genericMsg e := by
  have h1 : crearDashboardEjecutivo parse render wout fs rutaCsv archivoSalida =
      (fs, [fnfMsg rutaCsv]) := by simp [crearDashboardEjecutivo, h]
  refine ⟨h1, by rw [h1], ⟨_, _, rfl⟩, ?_⟩
  intro e hEq
  have h2 : (fnfMsg rutaCsv).data.head? = some 'E' := rfl
  have h3 : (genericMsg e).data.head? = some 'O' := rfl
  rw [hEq, h3] at h2
  exact absurd (Option.some.inj h2) (by decide)

/-- Witness for C6: a run on an empty file system ends in the
file-not-found diagnostic and changes nothing. -/
theorem claim_C6_witness :
    crearDashboardEjecutivo (fun _ => Except.error "x") (fun _ => "") WriteOutcome.ok ⟨[]⟩
        "city_pairs.csv" "dashboard_trafico_aereo.html" =
      (⟨[]⟩, [fnfMsg "city_pairs.csv"]) :=
  (claim_C6_missing_input (fun _ => Except.error "x") (fun _ => "") WriteOutcome.ok ⟨[]⟩
    "city_pairs.csv" "dashboard_trafico_aereo.html" rfl).1

/-- C7: a country with no ISO mapping entry carries a null geographic
code in the joined country aggregate and never appears in the
choropleth's plotted set, while its rows are still summed like every
other row: the country aggregate conserves the passenger KPI total,
the KPI total splits as the unmapped country's rows plus the rest, and
the unmapped country's full fiber sum is an entry of the aggregate the
top-10 country ranking is built from. -/
theorem claim_C7_unmapped_country (df : List Row) (c : String) (hc : isoOf c = none) :
    (∀ entry ∈ countryPassengersIso df, entry.1 = c → entry.2.2 = none) ∧
    (∀ entry ∈ choroplethPlotted df, entry.1 ≠ c) ∧
    ((countryPassengers df).map Prod.snd).sum = totalPassengers df ∧
    totalPassengers df =
      ((df.filter fun r => decide (r.country = c)).map Row.passengersTotal).sum +
      ((df.filter fun r => !(decide (r.country = c))).map Row.passengersTotal).sum ∧
    (c ∈ df.map Row.country →
      (c, fiberSum Row.country Row.passengersTotal df c) ∈ countryPassengers df) := by
  have hA : ∀ entry ∈ countryPassengersIso df, entry.1 = c → entry.2.2 = none := by
    intro entry hentry h1
    obtain ⟨kv, hkv, rfl⟩ := List.mem_map.mp hentry
    simp only at h1 ⊢
    rw [h1, hc]
  refine ⟨hA, ?_, sum_groupSum strLe Row.country Row.passengersTotal df,
    (sum_map_filter_split _ _ df).symm, ?_⟩
  · intro entry hentry h1
    obtain ⟨x, hx, hEq⟩ := List.mem_filterMap.mp hentry
    rcases hiso : x.2.2 with _ | iso
    · rw [hiso] at hEq
      exact absurd hEq (by simp)
    · rw [hiso] at hEq
      simp only [Option.some.injEq] at hEq
      have hx1 : x.1 = c := by rw [← hEq] at h1; exact h1
      rw [hA x hx hx1] at hiso
      exact absurd hiso (by simp)
  · intro hcmem
    obtain ⟨r, hr, hrc⟩ := List.mem_map.mp hcmem
    have := mem_groupSum strLe Row.country Row.passengersTotal hr
    rw [hrc] at this
    exact this

/-- Witness for C7 at a table containing the unmapped country Other:
its fiber sum is an entry of the country aggregate. -/
theorem claim_C7_witness :
    ("Other", fiberSum Row.country Row.passengersTotal df7 "Other") ∈ countryPassengers df7 :=
  (claim_C7_unmapped_country df7 "Other" (by decide)).2.2.2.2 (by decide)

/-- C9 counterexample: the loaded table is mutated after its creation:
line 50 of src/dashboard.py adds the Route column to df in place after
the port and country aggregates were created from it. -/
theorem claim_C9_counterexample : mutatesAfter pipelineTrace Entity.dataframe = true := by
  decide

/-- C9 as amended: the only entities mutated after creation are the
loaded table (line 50 adds the synthetic Route column in place) and the
country aggregate (line 75 adds the iso_alpha column in place), each
exactly once; every other entity is immutable after creation and only
read by later stages. -/
theorem claim_C9_amended :
    (∀ e, mutatesAfter pipelineTrace e = true →
      e = Entity.dataframe ∨ e = Entity.countryPassengers) ∧
    (pipelineTrace.filter fun ev => decide (ev = Ev.mutate Entity.dataframe)).length = 1 ∧
    (pipelineTrace.filter fun ev =>
      decide (ev = Ev.mutate Entity.countryPassengers)).length = 1 := by
  refine ⟨fun e => ?_, by decide, by decide⟩
  cases e <;> decide

/-- Witness for C9 as amended, applied to the mutated dataframe
entity. -/
theorem claim_C9_witness :
    Entity.dataframe = Entity.dataframe ∨ Entity.dataframe = Entity.countryPassengers :=
  claim_C9_amended.1 Entity.dataframe (by decide)

/-- C10: the wrapped pipeline never propagates an exception: every
execution returns normally with exactly one printed message, which is
the success message, the file-not-found diagnostic, or the generic
error message. -/
theorem claim_C10_one_message (parse : String → Except String (List RawRow))
    (render : Fig → String) (wout : WriteOutcome) (fs : FS)
    (rutaCsv archivoSalida : String) :
    (crearDashboardEjecutivo parse render wout fs rutaCsv archivoSalida).2.length = 1 ∧
    ((crearDashboardEjecutivo parse render wout fs rutaCsv archivoSalida).2 =
        [successMsg archivoSalida] ∨
      (crearDashboardEjecutivo parse render wout fs rutaCsv archivoSalida).2 =
        [fnfMsg rutaCsv] ∨
      ∃ e, (crearDashboardEjecutivo parse render wout fs rutaCsv archivoSalida).2 =
        [genericMsg e]) := by
  rcases hread : fs.read rutaCsv with _ | contents
  · exact ⟨by simp [crearDashboardEjecutivo, hread],
      Or.inr (Or.inl (by simp [crearDashboardEjecutivo, hread]))⟩
  · rcases hparse : parse contents with e | raw
    · exact ⟨by simp [crearDashboardEjecutivo, hread, hparse],
        Or.inr (Or.inr ⟨e, by simp [crearDashboardEjecutivo, hread, hparse]⟩)⟩
    · rcases hw : wout with _ | e | ⟨n, e⟩
      · exact ⟨by simp [crearDashboardEjecutivo, hread, hparse, hw],
          Or.inl (by simp [crearDashboardEjecutivo, hread, hparse, hw])⟩
      · exact ⟨by simp [crearDashboardEjecutivo, hread, hparse, hw],
          Or.inr (Or.inr ⟨e, by simp [crearDashboardEjecutivo, hread, hparse, hw]⟩)⟩
      · exact ⟨by simp [crearDashboardEjecutivo, hread, hparse, hw],
          Or.inr (Or.inr ⟨e, by simp [crearDashboardEjecutivo, hread, hparse, hw]⟩)⟩
